import Mathlib

/-!
Shallow embedding of the ncurses C++ binding layer of this repository
(include/cursesp.h, cursesm.h, cursesf.h, cursslk.h, cursesapp.h): the
identity-hook registry, the menu/form child-array synchronizer, the panel
decoration guard, the SLK layer stack and the dispatch run loop.

Pointers (object addresses and library handles) are modelled as natural
numbers, with 0 playing the role of the C NULL pointer.  A C++ exception
thrown through OnError is a recoverable outcome carrying the ETI error
code; a failed assert is a fatal outcome.
-/

/-! ETI error codes from the menu/form libraries (eti.h). -/

def E_OK : Int := 0

def E_SYSTEM_ERROR : Int := -1

def E_BAD_ARGUMENT : Int := -2

def E_UNKNOWN_COMMAND : Int := -8

def E_NO_MATCH : Int := -9

def E_NOT_SELECTABLE : Int := -10

def E_REQUEST_DENIED : Int := -12

/-- NCursesMenu::OnError / NCursesForm::OnError: throw an NCurses*Exception
carrying err exactly when err differs from E_OK.  The result some e means an
exception with code e was thrown; none means the call returned normally. -/
def OnError (err : Int) : Option Int :=
  if err = E_OK then none else some err

/-- Outcome of a call that either returns a value, throws a recoverable
NCurses exception (raised), or hits a failed assert (fatal abort). -/
inductive CallOutcome (α : Type) where
  | ok (val : α)
  | raised (err : Int)
  | fatal
deriving DecidableEq

/-- Outcome of a decoration call (frame/boldframe/label) on a menu or form:
forwarded to the base NCursesPanel decoration with the given titles,
returned without doing anything, or a recoverable NCurses exception. -/
inductive DecorOutcome where
  | forwarded (title btitle : Option String)
  | returned
  | raised (err : Int)
deriving DecidableEq

/-! The identity-hook records (the UserHook structs of cursesp.h, cursesm.h
and cursesf.h): an opaque user pointer, a back-reference to the owning C++
wrapper object, and a copy of the owning handle's address. -/

/-- UserHook of NCursesPanel (cursesp.h): m_user, m_back, m_owner. -/
structure PanelUserHook where
  m_user : Nat
  m_back : Nat
  m_owner : Nat
deriving DecidableEq

/-- UserHook of NCursesMenu (cursesm.h): m_user, m_back, m_owner. -/
structure MenuUserHook where
  m_user : Nat
  m_back : Nat
  m_owner : Nat
deriving DecidableEq

/-- UserHook of NCursesForm (cursesf.h): m_user, m_back, m_owner. -/
structure FormUserHook where
  m_user : Nat
  m_back : Nat
  m_owner : Nat
deriving DecidableEq

/-- The library-owned PANEL handle: its address and its user-data slot
(panel_userptr), which the binding uses only to store the identity hook. -/
structure PANEL where
  addr : Nat
  userptr : Option PanelUserHook
deriving DecidableEq

/-- The library-owned MENU handle: its address, the item handles connected
to it in attach order (set_menu_items), the library's current item index,
its user-data slot (menu_userptr), and the O_ONEVALUE option (true for a
single-selection menu, false for a multivalued one). -/
structure MENU where
  addr : Nat
  items : List Nat
  cur : Nat
  userptr : Option MenuUserHook
  oneValue : Bool
deriving DecidableEq

/-- The library-owned FORM handle: its address, the field handles connected
to it in attach order (set_form_fields), the library's current field index,
and its user-data slot (form_userptr). -/
structure FORM where
  addr : Nat
  fields : List Nat
  cur : Nat
  userptr : Option FormUserHook
deriving DecidableEq

/-- NCursesMenuItem: a wrapper owning one ITEM handle. -/
structure NCursesMenuItem where
  item : Nat
deriving DecidableEq

/-- NCursesFormField: a wrapper owning one FIELD handle. -/
structure NCursesFormField where
  field : Nat
deriving DecidableEq

/-- NCursesPanel: the wrapper object (its own address models the C++ this
pointer) together with the PANEL handle it references. -/
structure NCursesPanel where
  addr : Nat
  p : PANEL
deriving DecidableEq

/-- NCursesMenu: the wrapper object with its MENU handle, the b_framed flag
set at construction, and the parallel array my_items of item wrappers. -/
structure NCursesMenu where
  addr : Nat
  menu : MENU
  b_framed : Bool
  my_items : List NCursesMenuItem
deriving DecidableEq

/-- NCursesForm: the wrapper object with its FORM handle, the b_framed flag
set at construction, and the parallel array my_fields of field wrappers. -/
structure NCursesForm where
  addr : Nat
  form : FORM
  b_framed : Bool
  my_fields : List NCursesFormField
deriving DecidableEq

/-! Decorations (cursesm.h frame/boldframe/label, cursesf.h likewise):
guarded by the b_framed flag; on an unframed object OnError(E_SYSTEM_ERROR)
throws, otherwise the call is forwarded to the NCursesPanel base method. -/

/-- NCursesMenu::frame (cursesm.h): forwards to NCursesPanel::frame when
b_framed holds, otherwise OnError(E_SYSTEM_ERROR). -/
def NCursesMenu.frame (M : NCursesMenu) (title btitle : Option String) :
    DecorOutcome :=
  if M.b_framed then DecorOutcome.forwarded title btitle
  else
    match OnError E_SYSTEM_ERROR with
    | some e => DecorOutcome.raised e
    | none => DecorOutcome.returned

/-- NCursesMenu::boldframe (cursesm.h). -/
def NCursesMenu.boldframe (M : NCursesMenu) (title btitle : Option String) :
    DecorOutcome :=
  if M.b_framed then DecorOutcome.forwarded title btitle
  else
    match OnError E_SYSTEM_ERROR with
    | some e => DecorOutcome.raised e
    | none => DecorOutcome.returned

/-- NCursesMenu::label (cursesm.h). -/
def NCursesMenu.label (M : NCursesMenu) (topLabel bottomLabel : Option String) :
    DecorOutcome :=
  if M.b_framed then DecorOutcome.forwarded topLabel bottomLabel
  else
    match OnError E_SYSTEM_ERROR with
    | some e => DecorOutcome.raised e
    | none => DecorOutcome.returned

/-- NCursesForm::frame (cursesf.h). -/
def NCursesForm.frame (F : NCursesForm) (title btitle : Option String) :
    DecorOutcome :=
  if F.b_framed then DecorOutcome.forwarded title btitle
  else
    match OnError E_SYSTEM_ERROR with
    | some e => DecorOutcome.raised e
    | none => DecorOutcome.returned

/-- NCursesForm::boldframe (cursesf.h). -/
def NCursesForm.boldframe (F : NCursesForm) (title btitle : Option String) :
    DecorOutcome :=
  if F.b_framed then DecorOutcome.forwarded title btitle
  else
    match OnError E_SYSTEM_ERROR with
    | some e => DecorOutcome.raised e
    | none => DecorOutcome.returned

/-- NCursesForm::label (cursesf.h). -/
def NCursesForm.label (F : NCursesForm) (topLabel bottomLabel : Option String) :
    DecorOutcome :=
  if F.b_framed then DecorOutcome.forwarded topLabel bottomLabel
  else
    match OnError E_SYSTEM_ERROR with
    | some e => DecorOutcome.raised e
    | none => DecorOutcome.returned

/-! Identity-hook resolvers (cursesm.h getHook, cursesf.h getHook): read the
hook from the handle's user-data slot and assert that it is non-null and
that its m_owner field is the handle itself; a failed assert aborts. -/

/-- NCursesMenu::getHook (cursesm.h): assert(hook != 0 && hook->m_owner==m),
then return hook->m_back. -/
def NCursesMenu.getHook (m : MENU) : CallOutcome Nat :=
  match m.userptr with
  | none => CallOutcome.fatal
  | some hook =>
      if hook.m_owner = m.addr then CallOutcome.ok hook.m_back
      else CallOutcome.fatal

/-- NCursesForm::getHook (cursesf.h): assert(hook != 0 && hook->m_owner==f),
then return hook->m_back. -/
def NCursesForm.getHook (f : FORM) : CallOutcome Nat :=
  match f.userptr with
  | none => CallOutcome.fatal
  | some hook =>
      if hook.m_owner = f.addr then CallOutcome.ok hook.m_back
      else CallOutcome.fatal

/-! NCursesPanel user-data access (cursesp.h set_user/get_user): guarded by
a plain condition, not an assert; on a missing or foreign hook get_user
returns the null pointer and set_user leaves the slot untouched. -/

/-- NCursesPanel::set_user (cursesp.h): writes the m_user field only when
the hook is present, back-references this wrapper and owns this panel;
returns the (possibly updated) PANEL handle state. -/
def NCursesPanel.set_user (P : NCursesPanel) (user : Nat) : PANEL :=
  match P.p.userptr with
  | none => P.p
  | some uptr =>
      if uptr.m_back = P.addr ∧ uptr.m_owner = P.p.addr then
        { P.p with userptr := some { uptr with m_user := user } }
      else P.p

/-- NCursesPanel::get_user (cursesp.h): result starts as the null pointer
and is replaced by the stored m_user only when the hook matches. -/
def NCursesPanel.get_user (P : NCursesPanel) : Nat :=
  match P.p.userptr with
  | none => 0
  | some uptr =>
      if uptr.m_back = P.addr ∧ uptr.m_owner = P.p.addr then uptr.m_user
      else 0

/-! The SLK layer stack of NCursesApplication (cursesapp.h SLK_Link).  The
push/pop/top bodies live in cursesapp.cc, which is not part of this source
tree; they are modelled from the spec below. -/

/-- The SLK_Link chain of cursesapp.h: each node holds a Soft_Label_Key_Set
(modelled by its address) and the prev pointer to the node beneath it; null
models the empty stack. -/
inductive SLK_Stack where
  | null
  | link (prev : SLK_Stack) (slks : Nat)
deriving DecidableEq

/-- Modelled from the spec: NCursesApplication::push (body in cursesapp.cc,
not under src) makes S the current set, recording the previously current
stack as the new node's predecessor. -/
def NCursesApplication.push (S : Nat) (st : SLK_Stack) : SLK_Stack :=
  SLK_Stack.link st S

/-- Modelled from the spec: NCursesApplication::pop (body in cursesapp.cc,
not under src) discards the topmost node and restores its recorded
predecessor as current, returning false on an empty stack and leaving it
unchanged. -/
def NCursesApplication.pop : SLK_Stack → Bool × SLK_Stack
  | SLK_Stack.null => (false, SLK_Stack.null)
  | SLK_Stack.link prev _ => (true, prev)

/-- Modelled from the spec: NCursesApplication::top (body in cursesapp.cc,
not under src) returns the current set, none on an empty stack. -/
def NCursesApplication.top : SLK_Stack → Option Nat
  | SLK_Stack.null => none
  | SLK_Stack.link _ S => some S

/-! The process-wide SLK layout state of Soft_Label_Key_Set (cursslk.h:
static count / format / num_labels).  The constructor bodies live in
cursslk.cc, which is not part of this source tree; construction is
modelled from the spec below. -/

/-- Label_Layout of cursslk.h. -/
inductive Label_Layout where
  | None
  | Three_Two_Three
  | Four_Four
  | PC_Style
  | PC_Style_With_Index
deriving DecidableEq

/-- Number of soft labels provided by a layout (slk_init convention:
layouts 0 and 1 give 8 labels, the PC styles give 12). -/
def labelsOf : Label_Layout → Int
  | Label_Layout.None => 0
  | Label_Layout.Three_Two_Three => 8
  | Label_Layout.Four_Four => 8
  | Label_Layout.PC_Style => 12
  | Label_Layout.PC_Style_With_Index => 12

/-- The static members of Soft_Label_Key_Set (cursslk.h): count of key sets
constructed so far, the process-wide layout and the label count. -/
structure SLK_Globals where
  count : Int
  format : Label_Layout
  num_labels : Int
deriving DecidableEq

/-- Static initialization: no key set constructed yet, no layout fixed. -/
def slkInitialGlobals : SLK_Globals :=
  { count := 0, format := Label_Layout.None, num_labels := 0 }

/-- Which Soft_Label_Key_Set constructor ran: the explicit one taking a
Label_Layout, or the layout-free default one. -/
inductive SLK_Ctor where
  | withLayout (fmt : Label_Layout)
  | layoutFree
deriving DecidableEq

/-- Modelled from the spec: the effect of one Soft_Label_Key_Set
construction (bodies in cursslk.cc, not under src) on the static globals.
The layout is fixed at the first-ever construction and immutable
thereafter; the layout-free constructor reuses the stored layout. -/
def slkConstruct (g : SLK_Globals) : SLK_Ctor → SLK_Globals
  | SLK_Ctor.withLayout fmt =>
      if g.format = Label_Layout.None then
        { count := g.count + 1, format := fmt, num_labels := labelsOf fmt }
      else { g with count := g.count + 1 }
  | SLK_Ctor.layoutFree => { g with count := g.count + 1 }

/-! Soft_Label_Key_Set show/hide (cursslk.h): composed from the activation
primitives activate_label(i, bf) and activate_labels(bf), recorded here as
a trace of primitive activation events. -/

/-- One primitive SLK activation event: set_label_state i bf is
activate_label(i, bf) (activate label number i when bf, deactivate it
otherwise); set_all_states bf is activate_labels(bf). -/
inductive SLK_Op where
  | set_label_state (i : Int) (bf : Bool)
  | set_all_states (bf : Bool)
deriving DecidableEq

/-- Trace of Soft_Label_Key_Set::activate_label(i, bf). -/
def activate_label (i : Int) (bf : Bool) : List SLK_Op :=
  [SLK_Op.set_label_state i bf]

/-- Trace of Soft_Label_Key_Set::activate_labels(bf). -/
def activate_labels (bf : Bool) : List SLK_Op :=
  [SLK_Op.set_all_states bf]

/-- Soft_Label_Key_Set::show(int i) (cursslk.h): activate_label(i, FALSE)
then activate_label(i, TRUE). -/
def Soft_Label_Key_Set.show_one (i : Int) : List SLK_Op :=
  activate_label i false ++ activate_label i true

/-- Soft_Label_Key_Set::hide(int i) (cursslk.h): activate_label(i, FALSE). -/
def Soft_Label_Key_Set.hide_one (i : Int) : List SLK_Op :=
  activate_label i false

/-- Soft_Label_Key_Set::show() (cursslk.h): activate_labels(FALSE) then
activate_labels(TRUE). -/
def Soft_Label_Key_Set.show_all : List SLK_Op :=
  activate_labels false ++ activate_labels true

/-- Soft_Label_Key_Set::hide() (cursslk.h): activate_labels(FALSE). -/
def Soft_Label_Key_Set.hide_all : List SLK_Op :=
  activate_labels false

/-! The item/field array synchronizer.  InitMenu/mapItems and
InitForm/mapFields live in cursesm.cc / cursesf.cc, which are not part of
this source tree; the attach post-condition and the library's index
reporting are modelled from the spec. -/

/-- Position of a handle in a connected-handle list, counted from 0, or -1
when the handle is not in the list (first match wins). -/
def posIn : List Nat → Nat → Int
  | [], _ => -1
  | a :: t, x =>
      if a = x then 0
      else if posIn t x < 0 then -1 else posIn t x + 1

/-- Modelled from the spec: the menu library's item_index reports, for a
connected ITEM handle, its position in the attached array (-1 for a
foreign handle). -/
def item_index (m : MENU) (h : Nat) : Int :=
  posIn m.items h

/-- Modelled from the spec: the form library's field_index. -/
def field_index (f : FORM) (h : Nat) : Int :=
  posIn f.fields h

/-- The menu library's item_count: number of connected items. -/
def item_count (m : MENU) : Int :=
  m.items.length

/-- The form library's field_count: number of connected fields. -/
def field_count (f : FORM) : Int :=
  f.fields.length

/-- The menu library's current_item: the handle at the current index. -/
def lib_current_item (m : MENU) : Option Nat :=
  m.items.get? m.cur

/-- The form library's current_field: the handle at the current index. -/
def lib_current_field (f : FORM) : Option Nat :=
  f.fields.get? f.cur

/-- C array indexing with an int index: none models the out-of-range
access the C code never performs on the paths proved here. -/
def listGetI {α : Type} (l : List α) (i : Int) : Option α :=
  if i < 0 then none else l.get? i.toNat

/-- NCursesMenu::current_item (cursesm.h):
my_items[::item_index(::current_item(menu))]. -/
def NCursesMenu.current_item (M : NCursesMenu) : Option NCursesMenuItem :=
  match lib_current_item M.menu with
  | none => none
  | some h => listGetI M.my_items (item_index M.menu h)

/-- NCursesForm::current_field (cursesf.h):
my_fields[::field_index(::current_field(form))]. -/
def NCursesForm.current_field (F : NCursesForm) : Option NCursesFormField :=
  match lib_current_field F.form with
  | none => none
  | some h => listGetI F.my_fields (field_index F.form h)

/-- Attach post-condition for a menu (InitMenu/setItems, modelled from the
spec): the handle array connected to the MENU is exactly the handles of the
my_items wrapper array, in order. -/
def NCursesMenu.attached (M : NCursesMenu) : Prop :=
  M.menu.items = M.my_items.map NCursesMenuItem.item

/-- Attach post-condition for a form (InitForm/setFields, modelled from the
spec). -/
def NCursesForm.attached (F : NCursesForm) : Prop :=
  F.form.fields = F.my_fields.map NCursesFormField.field

/-- NCursesMenu::operator[] (cursesm.h): OnError(E_BAD_ARGUMENT) when i is
negative or at least ::item_count(menu), otherwise my_items[i]. -/
def NCursesMenu.opIndex (M : NCursesMenu) (i : Int) :
    Except Int (Option NCursesMenuItem) :=
  if i < 0 ∨ item_count M.menu ≤ i then
    match OnError E_BAD_ARGUMENT with
    | some e => Except.error e
    | none => Except.ok (listGetI M.my_items i)
  else Except.ok (listGetI M.my_items i)

/-- NCursesForm::operator[] (cursesf.h): OnError(E_BAD_ARGUMENT) when i is
negative or at least ::field_count(form), otherwise my_fields[i]. -/
def NCursesForm.opIndex (F : NCursesForm) (i : Int) :
    Except Int (Option NCursesFormField) :=
  if i < 0 ∨ field_count F.form ≤ i then
    match OnError E_BAD_ARGUMENT with
    | some e => Except.error e
    | none => Except.ok (listGetI F.my_fields i)
  else Except.ok (listGetI F.my_fields i)

/-! The dispatch run loops (NCursesMenu::operator(), NCursesForm::operator()).
Their bodies live in cursesm.cc / cursesf.cc, which are not part of this
source tree; the loop is modelled from the spec: each iteration reads one
key, virtualizes it into a request code, drives the library, resolves the
driver result through the four override points (whose defaults are
alert/no-op and change no state), and repeats unless the iteration
signalled the designated exit action. -/

/-- Driver result vocabulary resolved by the override points. -/
inductive DriverResult where
  | ok
  | requestDenied
  | notSelectable
  | noMatch
  | unknownCommand
deriving DecidableEq

/-- Parameters of one menu dispatch loop: the (overridable) key
virtualization, the library driver acting on the menu state, and the
designated exit signal of an iteration. -/
structure MenuDispatch where
  virtualize : Nat → Nat
  driver : NCursesMenu → Nat → NCursesMenu × DriverResult
  exitSignal : NCursesMenu → Nat → Bool

/-- Parameters of one form dispatch loop. -/
structure FormDispatch where
  virtualize : Nat → Nat
  driver : NCursesForm → Nat → NCursesForm × DriverResult
  exitSignal : NCursesForm → Nat → Bool

/-- Modelled from the spec: NCursesMenu::operator() (body in cursesm.cc,
not under src) over a scripted key sequence.  Some (final state, result)
when an iteration signalled the exit action: the current item for a
single-selection (O_ONEVALUE) menu, NULL for a multivalued one; none when
the script ran out with the loop still running. -/
def runMenu (D : MenuDispatch) :
    List Nat → NCursesMenu → Option (NCursesMenu × Option NCursesMenuItem)
  | [], _ => none
  | k :: ks, M =>
      let req := D.virtualize k
      let step := D.driver M req
      if D.exitSignal step.1 req then
        some (step.1,
          if step.1.menu.oneValue then step.1.current_item else none)
      else runMenu D ks step.1

/-- Modelled from the spec: NCursesForm::operator() (body in cursesf.cc,
not under src) over a scripted key sequence; on exit it returns the
current field. -/
def runForm (D : FormDispatch) :
    List Nat → NCursesForm → Option (NCursesForm × Option NCursesFormField)
  | [], _ => none
  | k :: ks, F =>
      let req := D.virtualize k
      let step := D.driver F req
      if D.exitSignal step.1 req then some (step.1, step.1.current_field)
      else runForm D ks step.1

/-! Concrete instances used by the witnesses below. -/

/-- A MENU whose user-data slot is empty. -/
def menuNoHook : MENU :=
  { addr := 5, items := [], cur := 0, userptr := none, oneValue := true }

/-- A MENU whose hook back-references wrapper 9 and owns handle 5. -/
def menuGoodHook : MENU :=
  { addr := 5, items := [], cur := 0,
    userptr := some { m_user := 0, m_back := 9, m_owner := 5 },
    oneValue := true }

/-- A FORM whose hook owner field names a different handle. -/
def formForeignHook : FORM :=
  { addr := 6, fields := [], cur := 0,
    userptr := some { m_user := 0, m_back := 11, m_owner := 77 } }

/-- A FORM whose hook back-references wrapper 11 and owns handle 6. -/
def formGoodHook : FORM :=
  { addr := 6, fields := [], cur := 0,
    userptr := some { m_user := 0, m_back := 11, m_owner := 6 } }

/-- A menu with three items attached (handles 101, 102, 103), current
index 2. -/
def menuThree : NCursesMenu :=
  { addr := 9,
    menu := { addr := 5, items := [101, 102, 103], cur := 2,
              userptr := none, oneValue := true },
    b_framed := false,
    my_items := [{ item := 101 }, { item := 102 }, { item := 103 }] }

/-- A form with two fields attached (handles 201, 202), current index 0. -/
def formTwo : NCursesForm :=
  { addr := 11,
    form := { addr := 6, fields := [201, 202], cur := 0, userptr := none },
    b_framed := false,
    my_fields := [{ field := 201 }, { field := 202 }] }

/-- A panel whose hook matches: back-reference 21, owner 31. -/
def panelGood : NCursesPanel :=
  { addr := 21,
    p := { addr := 31,
           userptr := some { m_user := 42, m_back := 21, m_owner := 31 } } }

/-- A panel whose hook back-references a different wrapper. -/
def panelForeign : NCursesPanel :=
  { addr := 22,
    p := { addr := 31,
           userptr := some { m_user := 42, m_back := 21, m_owner := 31 } } }

/-- A dispatch instance for the witness: requests are the keys themselves,
the driver leaves the menu unchanged, and request 7 is the exit action. -/
def menuDispatchEx : MenuDispatch :=
  { virtualize := fun k => k,
    driver := fun M _ => (M, DriverResult.ok),
    exitSignal := fun _ r => r == 7 }

/-- The form counterpart of menuDispatchEx. -/
def formDispatchEx : FormDispatch :=
  { virtualize := fun k => k,
    driver := fun F _ => (F, DriverResult.ok),
    exitSignal := fun _ r => r == 7 }

/-- Claim C1: on every NCursesMenu and NCursesForm (the Panel-class wrappers
carrying the framed flag), frame(), boldframe() and label() raise the
recoverable E_SYSTEM_ERROR exception when the object was constructed with
the framed flag false, and forward to the base NCursesPanel decoration when
it was set; no call is fatal. -/
theorem decoration_guard (M : NCursesMenu) (F : NCursesForm)
    (title btitle : Option String) :
    M.frame title btitle =
      (if M.b_framed then DecorOutcome.forwarded title btitle
       else DecorOutcome.raised E_SYSTEM_ERROR) ∧
    M.boldframe title btitle =
      (if M.b_framed then DecorOutcome.forwarded title btitle
       else DecorOutcome.raised E_SYSTEM_ERROR) ∧
    M.label title btitle =
      (if M.b_framed then DecorOutcome.forwarded title btitle
       else DecorOutcome.raised E_SYSTEM_ERROR) ∧
    F.frame title btitle =
      (if F.b_framed then DecorOutcome.forwarded title btitle
       else DecorOutcome.raised E_SYSTEM_ERROR) ∧
    F.boldframe title btitle =
      (if F.b_framed then DecorOutcome.forwarded title btitle
       else DecorOutcome.raised E_SYSTEM_ERROR) ∧
    F.label title btitle =
      (if F.b_framed then DecorOutcome.forwarded title btitle
       else DecorOutcome.raised E_SYSTEM_ERROR) := by
  refine ⟨?_, ?_, ?_, ?_, ?_, ?_⟩ <;>
    simp only [NCursesMenu.frame, NCursesMenu.boldframe, NCursesMenu.label,
      NCursesForm.frame, NCursesForm.boldframe, NCursesForm.label, OnError,
      E_SYSTEM_ERROR, E_OK] <;>
    split <;> simp

/-- Claim C2: for every MENU and FORM handle, getHook fails fatally (the
assert aborts) when the hook read from the user-data slot is null or its
owner field differs from the handle, never returning a wrapper and never
raising a recoverable exception; when the hook matches it returns the
back-referenced owning wrapper. -/
theorem getHook_identity_assert (m : MENU) (f : FORM) :
    (m.userptr = none → NCursesMenu.getHook m = CallOutcome.fatal) ∧
    (∀ hook, m.userptr = some hook → hook.m_owner ≠ m.addr →
      NCursesMenu.getHook m = CallOutcome.fatal) ∧
    (∀ hook, m.userptr = some hook → hook.m_owner = m.addr →
      NCursesMenu.getHook m = CallOutcome.ok hook.m_back) ∧
    (f.userptr = none → NCursesForm.getHook f = CallOutcome.fatal) ∧
    (∀ hook, f.userptr = some hook → hook.m_owner ≠ f.addr →
      NCursesForm.getHook f = CallOutcome.fatal) ∧
    (∀ hook, f.userptr = some hook → hook.m_owner = f.addr →
      NCursesForm.getHook f = CallOutcome.ok hook.m_back) := by
  refine ⟨?_, ?_, ?_, ?_, ?_, ?_⟩
  · intro h; simp [NCursesMenu.getHook, h]
  · intro hook h hne; simp [NCursesMenu.getHook, h, hne]
  · intro hook h heq; simp [NCursesMenu.getHook, h, heq]
  · intro h; simp [NCursesForm.getHook, h]
  · intro hook h hne; simp [NCursesForm.getHook, h, hne]
  · intro hook h heq; simp [NCursesForm.getHook, h, heq]

/-- Witness for C2: the resolver on concrete handles: missing hook and
foreign owner are fatal, a matching hook yields the owning wrapper. -/
theorem getHook_identity_assert_witness :
    NCursesMenu.getHook menuNoHook = CallOutcome.fatal ∧
    NCursesMenu.getHook menuGoodHook = CallOutcome.ok 9 ∧
    NCursesForm.getHook formForeignHook = CallOutcome.fatal ∧
    NCursesForm.getHook formGoodHook = CallOutcome.ok 11 :=
  ⟨(getHook_identity_assert menuNoHook formGoodHook).1 rfl,
   (getHook_identity_assert menuGoodHook formGoodHook).2.2.1
     { m_user := 0, m_back := 9, m_owner := 5 } rfl rfl,
   (getHook_identity_assert menuGoodHook formForeignHook).2.2.2.2.1
     { m_user := 0, m_back := 11, m_owner := 77 } rfl (by decide),
   (getHook_identity_assert menuGoodHook formGoodHook).2.2.2.2.2
     { m_user := 0, m_back := 11, m_owner := 6 } rfl rfl⟩

/-- Claim C4: the SLK stack is LIFO: push(A); push(B); pop() leaves A as the
current set returned by top(); push records the previously current stack as
the new node's predecessor, and pop discards only the topmost node and
restores its recorded predecessor as current. -/
theorem slk_stack_lifo (A B : Nat) (st : SLK_Stack) :
    NCursesApplication.push B (NCursesApplication.push A st) =
      SLK_Stack.link (NCursesApplication.push A st) B ∧
    NCursesApplication.pop
        (NCursesApplication.push B (NCursesApplication.push A st)) =
      (true, NCursesApplication.push A st) ∧
    NCursesApplication.top
      (NCursesApplication.pop
        (NCursesApplication.push B (NCursesApplication.push A st))).2 =
      some A ∧
    NCursesApplication.top (NCursesApplication.push A st) = some A :=
  ⟨rfl, rfl, rfl, rfl⟩

/-- Claim C5: pop() on the empty SLK stack returns false, leaves the stack
unchanged (so there is still no current layer), and signals no error. -/
theorem slk_pop_empty :
    NCursesApplication.pop SLK_Stack.null = (false, SLK_Stack.null) ∧
    NCursesApplication.top SLK_Stack.null = none :=
  ⟨rfl, rfl⟩

/-- Claim C8: show(i) performs exactly deactivate label i then activate
label i; hide(i) performs only a deactivation of label i; show() performs
deactivate-all then activate-all; hide() performs only deactivate-all. -/
theorem slk_show_hide_sequences (i : Int) :
    Soft_Label_Key_Set.show_one i =
      [SLK_Op.set_label_state i false, SLK_Op.set_label_state i true] ∧
    Soft_Label_Key_Set.hide_one i = [SLK_Op.set_label_state i false] ∧
    Soft_Label_Key_Set.show_all =
      [SLK_Op.set_all_states false, SLK_Op.set_all_states true] ∧
    Soft_Label_Key_Set.hide_all = [SLK_Op.set_all_states false] :=
  ⟨rfl, rfl, rfl, rfl⟩

/-- Claim C10: on every NCursesPanel, with no hook or a hook whose
back-reference or owner does not match, get_user returns the null pointer
and set_user changes nothing, and neither faults; on a matching hook,
get_user returns the stored user pointer and set_user overwrites only the
m_user field. -/
theorem panel_user_data_guard (P : NCursesPanel) (user : Nat) :
    (P.p.userptr = none → P.get_user = 0 ∧ P.set_user user = P.p) ∧
    (∀ uptr, P.p.userptr = some uptr →
      uptr.m_back ≠ P.addr ∨ uptr.m_owner ≠ P.p.addr →
      P.get_user = 0 ∧ P.set_user user = P.p) ∧
    (∀ uptr, P.p.userptr = some uptr →
      uptr.m_back = P.addr → uptr.m_owner = P.p.addr →
      P.get_user = uptr.m_user ∧
      P.set_user user =
        { P.p with userptr := some { uptr with m_user := user } }) := by
  refine ⟨?_, ?_, ?_⟩
  · intro h
    constructor <;> simp [NCursesPanel.get_user, NCursesPanel.set_user, h]
  · intro uptr h hne
    have hcond : ¬(uptr.m_back = P.addr ∧ uptr.m_owner = P.p.addr) :=
      fun hc => hne.elim (fun h1 => h1 hc.1) (fun h1 => h1 hc.2)
    constructor <;>
      simp [NCursesPanel.get_user, NCursesPanel.set_user, h, hcond]
  · intro uptr h h1 h2
    constructor <;>
      simp [NCursesPanel.get_user, NCursesPanel.set_user, h, h1, h2]

/-- Witness for C10: concrete panels: a matching hook yields the stored
user pointer and a targeted update; a foreign hook yields null and no
change. -/
theorem panel_user_data_guard_witness :
    NCursesPanel.get_user panelGood = 42 ∧
    NCursesPanel.get_user panelForeign = 0 ∧
    NCursesPanel.set_user panelForeign 7 = panelForeign.p ∧
    NCursesPanel.set_user panelGood 7 =
      { panelGood.p with
        userptr := some { m_user := 7, m_back := 21, m_owner := 31 } } :=
  ⟨((panel_user_data_guard panelGood 7).2.2
      { m_user := 42, m_back := 21, m_owner := 31 } rfl rfl rfl).1,
   ((panel_user_data_guard panelForeign 7).2.1
      { m_user := 42, m_back := 21, m_owner := 31 } rfl
      (Or.inl (by decide))).1,
   ((panel_user_data_guard panelForeign 7).2.1
      { m_user := 42, m_back := 21, m_owner := 31 } rfl
      (Or.inl (by decide))).2,
   ((panel_user_data_guard panelGood 7).2.2
      { m_user := 42, m_back := 21, m_owner := 31 } rfl rfl rfl).2⟩

/-- A handle occurring at position i of a duplicate-free connected-handle
list is reported at index i. -/
theorem posIn_get (l : List Nat) (hnd : l.Nodup) (i : Nat) (x : Nat)
    (h : l.get? i = some x) : posIn l x = (i : Int) := by
  induction l generalizing i with
  | nil => simp at h
  | cons a t ih =>
    rcases List.nodup_cons.mp hnd with ⟨ha, hndt⟩
    cases i with
    | zero =>
      have hax : a = x := by simpa using h
      subst hax
      simp [posIn]
    | succ n =>
      have ht : t.get? n = some x := by simpa using h
      have hx : x ∈ t := List.get?_mem ht
      have hax : ¬ a = x := fun he => ha (he ▸ hx)
      have hr : posIn t x = (n : Int) := ih hndt n ht
      simp only [posIn, hr]
      rw [if_neg hax, if_neg (by omega : ¬ ((n : Int) < 0))]
      omega

/-- Claim C3: for an attached child collection with duplicate-free handles,
the library-reported index of the i-th child's handle equals i, and
current_item / current_field, which index my_items / my_fields by the
reported index of the library's current handle, return exactly the wrapper
owning that handle. -/
theorem index_sync_current_item (M : NCursesMenu) (F : NCursesForm)
    (hM : M.attached) (hMnd : M.menu.items.Nodup)
    (hF : F.attached) (hFnd : F.form.fields.Nodup) :
    (∀ i w, M.my_items.get? i = some w →
      item_index M.menu w.item = (i : Int)) ∧
    (M.menu.cur < M.my_items.length →
      ∃ w, M.my_items.get? M.menu.cur = some w ∧
        lib_current_item M.menu = some w.item ∧
        M.current_item = some w) ∧
    (∀ i w, F.my_fields.get? i = some w →
      field_index F.form w.field = (i : Int)) ∧
    (F.form.cur < F.my_fields.length →
      ∃ w, F.my_fields.get? F.form.cur = some w ∧
        lib_current_field F.form = some w.field ∧
        F.current_field = some w) := by
  have hMidx : ∀ i w, M.my_items.get? i = some w →
      item_index M.menu w.item = (i : Int) := by
    intro i w hw
    have hnd2 : (M.my_items.map NCursesMenuItem.item).Nodup := hM ▸ hMnd
    have hmap : (M.my_items.map NCursesMenuItem.item).get? i = some w.item := by
      rw [List.get?_map, hw]; rfl
    have hp := posIn_get _ hnd2 i w.item hmap
    show posIn M.menu.items w.item = (i : Int)
    rw [hM]
    exact hp
  have hFidx : ∀ i w, F.my_fields.get? i = some w →
      field_index F.form w.field = (i : Int) := by
    intro i w hw
    have hnd2 : (F.my_fields.map NCursesFormField.field).Nodup := hF ▸ hFnd
    have hmap : (F.my_fields.map NCursesFormField.field).get? i =
        some w.field := by
      rw [List.get?_map, hw]; rfl
    have hp := posIn_get _ hnd2 i w.field hmap
    show posIn F.form.fields w.field = (i : Int)
    rw [hF]
    exact hp
  refine ⟨hMidx, ?_, hFidx, ?_⟩
  · intro hcur
    have hw : M.my_items.get? M.menu.cur =
        some (M.my_items.get ⟨M.menu.cur, hcur⟩) := List.get?_eq_get hcur
    have hlib : lib_current_item M.menu =
        some (M.my_items.get ⟨M.menu.cur, hcur⟩).item := by
      show M.menu.items.get? M.menu.cur = _
      rw [hM, List.get?_map, hw]; rfl
    refine ⟨M.my_items.get ⟨M.menu.cur, hcur⟩, hw, hlib, ?_⟩
    have hidx := hMidx M.menu.cur _ hw
    simp only [NCursesMenu.current_item, hlib, hidx, listGetI]
    rw [if_neg (by omega : ¬ ((M.menu.cur : Int) < 0))]
    have htn : ((M.menu.cur : Int)).toNat = M.menu.cur := by omega
    rw [htn]
    exact hw
  · intro hcur
    have hw : F.my_fields.get? F.form.cur =
        some (F.my_fields.get ⟨F.form.cur, hcur⟩) := List.get?_eq_get hcur
    have hlib : lib_current_field F.form =
        some (F.my_fields.get ⟨F.form.cur, hcur⟩).field := by
      show F.form.fields.get? F.form.cur = _
      rw [hF, List.get?_map, hw]; rfl
    refine ⟨F.my_fields.get ⟨F.form.cur, hcur⟩, hw, hlib, ?_⟩
    have hidx := hFidx F.form.cur _ hw
    simp only [NCursesForm.current_field, hlib, hidx, listGetI]
    rw [if_neg (by omega : ¬ ((F.form.cur : Int) < 0))]
    have htn : ((F.form.cur : Int)).toNat = F.form.cur := by omega
    rw [htn]
    exact hw

/-- Witness for C3: on the concrete three-item menu and two-field form the
reported index matches the position and current_item / current_field yield
the owning wrappers. -/
theorem index_sync_current_item_witness :
    item_index menuThree.menu 102 = 1 ∧
    NCursesMenu.current_item menuThree = some { item := 103 } ∧
    NCursesForm.current_field formTwo = some { field := 201 } := by
  have H := index_sync_current_item menuThree formTwo rfl (by decide) rfl
    (by decide)
  refine ⟨by simpa using H.1 1 { item := 102 } rfl, ?_, ?_⟩
  · obtain ⟨w, hw, _, hcur⟩ := H.2.1 (by decide)
    have hw3 : w = ({ item := 103 } : NCursesMenuItem) := by
      have hsome : (some w : Option NCursesMenuItem) = some { item := 103 } := by
        rw [← hw]; decide
      exact Option.some.inj hsome
    rw [hcur, hw3]
  · obtain ⟨w, hw, _, hcur⟩ := H.2.2.2 (by decide)
    have hw3 : w = ({ field := 201 } : NCursesFormField) := by
      have hsome : (some w : Option NCursesFormField) = some { field := 201 } := by
        rw [← hw]; decide
      exact Option.some.inj hsome
    rw [hcur, hw3]

/-- One Soft_Label_Key_Set construction after the layout has been fixed
changes neither the stored layout nor the label count. -/
theorem slkConstruct_preserves (g : SLK_Globals)
    (hg : g.format ≠ Label_Layout.None) (c : SLK_Ctor) :
    (slkConstruct g c).format = g.format ∧
    (slkConstruct g c).num_labels = g.num_labels := by
  cases c with
  | withLayout fmt => simp [slkConstruct, hg]
  | layoutFree => simp [slkConstruct]

/-- Any sequence of later constructions preserves the fixed layout. -/
theorem slkConstruct_foldl (cs : List SLK_Ctor) (g : SLK_Globals)
    (hg : g.format ≠ Label_Layout.None) :
    (cs.foldl slkConstruct g).format = g.format ∧
    (cs.foldl slkConstruct g).num_labels = g.num_labels := by
  induction cs generalizing g with
  | nil => exact ⟨rfl, rfl⟩
  | cons c cs ih =>
    have h1 := slkConstruct_preserves g hg c
    have hne : (slkConstruct g c).format ≠ Label_Layout.None := by
      rw [h1.1]; exact hg
    have h2 := ih (slkConstruct g c) hne
    exact ⟨h2.1.trans h1.1, h2.2.trans h1.2⟩

/-- Claim C6: the SLK layout and label count are fixed at the first-ever
Soft_Label_Key_Set construction; every later construction (in particular
every layout-free default construction) leaves them unchanged, so later
sets reuse the first set's layout and label count. -/
theorem slk_layout_fixed_once (fmt : Label_Layout) (cs : List SLK_Ctor)
    (hfmt : fmt ≠ Label_Layout.None) :
    (slkConstruct slkInitialGlobals (SLK_Ctor.withLayout fmt)).format = fmt ∧
    (slkConstruct slkInitialGlobals (SLK_Ctor.withLayout fmt)).num_labels =
      labelsOf fmt ∧
    (cs.foldl slkConstruct
        (slkConstruct slkInitialGlobals (SLK_Ctor.withLayout fmt))).format =
      fmt ∧
    (cs.foldl slkConstruct
        (slkConstruct slkInitialGlobals
          (SLK_Ctor.withLayout fmt))).num_labels = labelsOf fmt := by
  have h0 : slkConstruct slkInitialGlobals (SLK_Ctor.withLayout fmt) =
      { count := 1, format := fmt, num_labels := labelsOf fmt } := by
    simp [slkConstruct, slkInitialGlobals]
  have hne : (slkConstruct slkInitialGlobals
      (SLK_Ctor.withLayout fmt)).format ≠ Label_Layout.None := by
    rw [h0]; exact hfmt
  have hf := slkConstruct_foldl cs _ hne
  exact ⟨by rw [h0], by rw [h0], hf.1.trans (by rw [h0]),
    hf.2.trans (by rw [h0])⟩

/-- Witness for C6: fixing the three-two-three layout and then running two
layout-free constructions leaves the layout and the eight labels in
place. -/
theorem slk_layout_fixed_once_witness :
    ([SLK_Ctor.layoutFree, SLK_Ctor.layoutFree].foldl slkConstruct
        (slkConstruct slkInitialGlobals
          (SLK_Ctor.withLayout Label_Layout.Three_Two_Three))).format =
      Label_Layout.Three_Two_Three ∧
    ([SLK_Ctor.layoutFree, SLK_Ctor.layoutFree].foldl slkConstruct
        (slkConstruct slkInitialGlobals
          (SLK_Ctor.withLayout Label_Layout.Three_Two_Three))).num_labels =
      8 :=
  ⟨(slk_layout_fixed_once Label_Layout.Three_Two_Three
      [SLK_Ctor.layoutFree, SLK_Ctor.layoutFree] (by decide)).2.2.1,
   (slk_layout_fixed_once Label_Layout.Three_Two_Three
      [SLK_Ctor.layoutFree, SLK_Ctor.layoutFree] (by decide)).2.2.2⟩

/-- Claim C7: operator[] on a menu or form raises the recoverable
E_BAD_ARGUMENT exception for every index below zero or at least the
library-reported count, and returns the i-th child wrapper for every index
within range. -/
theorem operator_index_bounds (M : NCursesMenu) (F : NCursesForm) (i : Int) :
    ((i < 0 ∨ item_count M.menu ≤ i) →
      M.opIndex i = Except.error E_BAD_ARGUMENT) ∧
    (M.attached → 0 ≤ i → i < item_count M.menu →
      ∃ w, M.my_items.get? i.toNat = some w ∧
        M.opIndex i = Except.ok (some w)) ∧
    ((i < 0 ∨ field_count F.form ≤ i) →
      F.opIndex i = Except.error E_BAD_ARGUMENT) ∧
    (F.attached → 0 ≤ i → i < field_count F.form →
      ∃ w, F.my_fields.get? i.toNat = some w ∧
        F.opIndex i = Except.ok (some w)) := by
  refine ⟨?_, ?_, ?_, ?_⟩
  · intro h
    simp only [NCursesMenu.opIndex, if_pos h, OnError, E_BAD_ARGUMENT, E_OK]
    norm_num
  · intro hat h0 hlt
    have hcond : ¬(i < 0 ∨ item_count M.menu ≤ i) := by
      intro hc
      rcases hc with hc | hc <;> omega
    have hcnt : item_count M.menu = (M.my_items.length : Int) := by
      show (M.menu.items.length : Int) = _
      rw [hat, List.length_map]
    have hlt2 : i.toNat < M.my_items.length := by
      rw [hcnt] at hlt
      omega
    refine ⟨M.my_items.get ⟨i.toNat, hlt2⟩, List.get?_eq_get hlt2, ?_⟩
    simp only [NCursesMenu.opIndex, if_neg hcond, listGetI,
      if_neg (by omega : ¬ i < 0)]
    rw [List.get?_eq_get hlt2]
  · intro h
    simp only [NCursesForm.opIndex, if_pos h, OnError, E_BAD_ARGUMENT, E_OK]
    norm_num
  · intro hat h0 hlt
    have hcond : ¬(i < 0 ∨ field_count F.form ≤ i) := by
      intro hc
      rcases hc with hc | hc <;> omega
    have hcnt : field_count F.form = (F.my_fields.length : Int) := by
      show (F.form.fields.length : Int) = _
      rw [hat, List.length_map]
    have hlt2 : i.toNat < F.my_fields.length := by
      rw [hcnt] at hlt
      omega
    refine ⟨F.my_fields.get ⟨i.toNat, hlt2⟩, List.get?_eq_get hlt2, ?_⟩
    simp only [NCursesForm.opIndex, if_neg hcond, listGetI,
      if_neg (by omega : ¬ i < 0)]
    rw [List.get?_eq_get hlt2]

/-- Witness for C7: on the concrete menu and form, index 5 and index -1 are
rejected with E_BAD_ARGUMENT and index 1 yields the second item wrapper. -/
theorem operator_index_bounds_witness :
    NCursesMenu.opIndex menuThree 5 = Except.error E_BAD_ARGUMENT ∧
    NCursesMenu.opIndex menuThree 1 = Except.ok (some { item := 102 }) ∧
    NCursesForm.opIndex formTwo (-1) = Except.error E_BAD_ARGUMENT := by
  refine ⟨(operator_index_bounds menuThree formTwo 5).1 (Or.inr (by decide)),
    ?_, (operator_index_bounds menuThree formTwo (-1)).2.2.1
      (Or.inl (by decide))⟩
  obtain ⟨w, hw, ho⟩ := (operator_index_bounds menuThree formTwo 1).2.1 rfl
    (by decide) (by decide)
  have hw3 : w = ({ item := 102 } : NCursesMenuItem) := by
    have hsome : (some w : Option NCursesMenuItem) = some { item := 102 } := by
      rw [← hw]; decide
    exact Option.some.inj hsome
  rw [ho, hw3]

/-- Claim C9: the dispatch run loops repeat the read-virtualize-drive-resolve
iteration until an iteration signals the designated exit action, and then
return the current item for a single-selection menu, NULL for a multivalued
menu, and the current field for a form. -/
theorem dispatch_loop_returns_selection :
    (∀ (D : MenuDispatch) (keys : List Nat) (M Mf : NCursesMenu)
        (res : Option NCursesMenuItem),
      runMenu D keys M = some (Mf, res) →
      res = (if Mf.menu.oneValue then Mf.current_item else none)) ∧
    (∀ (D : FormDispatch) (keys : List Nat) (F Ff : NCursesForm)
        (res : Option NCursesFormField),
      runForm D keys F = some (Ff, res) → res = Ff.current_field) ∧
    (∀ (D : MenuDispatch) (M : NCursesMenu), runMenu D [] M = none) ∧
    (∀ (D : MenuDispatch) (k : Nat) (ks : List Nat) (M : NCursesMenu),
      runMenu D (k :: ks) M =
        (if D.exitSignal (D.driver M (D.virtualize k)).1 (D.virtualize k) then
          some ((D.driver M (D.virtualize k)).1,
            if (D.driver M (D.virtualize k)).1.menu.oneValue then
              (D.driver M (D.virtualize k)).1.current_item
            else none)
        else runMenu D ks (D.driver M (D.virtualize k)).1)) := by
  refine ⟨?_, ?_, fun D M => rfl, fun D k ks M => rfl⟩
  · intro D keys
    induction keys with
    | nil =>
      intro M Mf res h
      simp [runMenu] at h
    | cons k ks ih =>
      intro M Mf res h
      simp only [runMenu] at h
      split at h
      · rw [Option.some.injEq, Prod.mk.injEq] at h
        obtain ⟨h1, h2⟩ := h
        subst h1
        exact h2.symm
      · exact ih _ _ _ h
  · intro D keys
    induction keys with
    | nil =>
      intro F Ff res h
      simp [runForm] at h
    | cons k ks ih =>
      intro F Ff res h
      simp only [runForm] at h
      split at h
      · rw [Option.some.injEq, Prod.mk.injEq] at h
        obtain ⟨h1, h2⟩ := h
        subst h1
        exact h2.symm
      · exact ih _ _ _ h

/-- Witness for C9: a scripted two-key run (a non-exit key, then the exit
key) on the concrete single-selection menu returns its current item, and a
one-key run on the concrete form returns its current field. -/
theorem dispatch_loop_returns_selection_witness :
    runMenu menuDispatchEx [3, 7] menuThree =
      some (menuThree, some { item := 103 }) ∧
    (some { item := 103 } : Option NCursesMenuItem) =
      (if menuThree.menu.oneValue then menuThree.current_item else none) ∧
    runForm formDispatchEx [7] formTwo =
      some (formTwo, some { field := 201 }) ∧
    (some { field := 201 } : Option NCursesFormField) =
      formTwo.current_field := by
  have h1 : runMenu menuDispatchEx [3, 7] menuThree =
      some (menuThree, some { item := 103 }) := by decide
  have h2 : runForm formDispatchEx [7] formTwo =
      some (formTwo, some { field := 201 }) := by decide
  exact ⟨h1,
    dispatch_loop_returns_selection.1 menuDispatchEx [3, 7] menuThree
      menuThree (some { item := 103 }) h1,
    h2,
    dispatch_loop_returns_selection.2.1 formDispatchEx [7] formTwo formTwo
      (some { field := 201 }) h2⟩
